import Mathlib

/-!
Shallow embedding of the booking admission and lifecycle logic of the
car-rental backend:

* `backend/controllers/bookings.js` — createBooking, updateBooking,
  confirmBookingPayment (the Booking Lifecycle Manager and the inline
  Availability Checker queries);
* the Booking schema (mongoose model, fields `user`, `car`, `start_date`,
  `end_date`, `total_cost`, `booking_status`, `pickup_location`,
  `dropoff_location`);
* `backend/routes/bookings.js` and the server mounting of the routers;
* `frontend/js/account.js` — handleUserCancelBooking (the self-service
  cancellation request).

Modelling conventions:
* calendar instants are integer milliseconds since the epoch (the value of
  `Date.prototype.getTime()`); `new Date(s)` on a request string is modelled
  by a `DateInput` that is either missing (falsy field), invalid (NaN), or
  a parsed instant;
* money amounts (`daily_rate`, `total_cost`) are rationals (exact values of
  the JS numbers used by the claims);
* object ids are naturals;
* MongoDB filter semantics: a comparison operator applied to a document
  path that is absent from the document matches nothing.  The filter is
  taken as written in the source (it reaches the store unmodified, as under
  the default `strictQuery` setting of current mongoose).
-/

/-- Status strings admitted by the Booking schema enum
(`booking_status: enum [pending_payment, confirmed, active, completed, cancelled]`). -/
def bookingStatusEnum : List String :=
  ["pending_payment", "confirmed", "active", "completed", "cancelled"]

/-- A persisted Booking document.  Its fields are exactly the paths declared
by the Booking schema (ids, the two snake_case date fields, cost, status);
mongoose strict mode means no other path ever exists on a stored document.
`createdAt` is omitted (never read by the embedded logic). -/
structure BookingDoc where
  _id : Nat
  user : Nat
  car : Nat
  start_date : Int
  end_date : Int
  total_cost : ℚ
  pickup_location : Nat
  dropoff_location : Nat
  booking_status : String
deriving DecidableEq, Repr

/-- Date-valued field lookup on a stored Booking document, by document path.
The schema declares `start_date` and `end_date`; in particular the camelCase
paths `startDate` / `endDate` used by the availability filters are absent
from every stored document. -/
def docField (b : BookingDoc) (k : String) : Option Int :=
  if k = "start_date" then some b.start_date
  else if k = "end_date" then some b.end_date
  else none

/-- MongoDB `$lt` on a possibly-absent field: absent matches nothing. -/
def mongoLt (v : Option Int) (bound : Int) : Bool :=
  match v with
  | some x => decide (x < bound)
  | none => false

/-- MongoDB `$lte` on a possibly-absent field: absent matches nothing. -/
def mongoLte (v : Option Int) (bound : Int) : Bool :=
  match v with
  | some x => decide (x ≤ bound)
  | none => false

/-- MongoDB `$gt` on a possibly-absent field: absent matches nothing. -/
def mongoGt (v : Option Int) (bound : Int) : Bool :=
  match v with
  | some x => decide (x > bound)
  | none => false

/-- MongoDB `$gte` on a possibly-absent field: absent matches nothing. -/
def mongoGte (v : Option Int) (bound : Int) : Bool :=
  match v with
  | some x => decide (x ≥ bound)
  | none => false

/-- The `$or` date condition of both availability queries, evaluated on the
(possibly absent) values of the `startDate` and `endDate` paths:
`[ startDate: lt end, gte start ; endDate: gt start, lte end ;
   startDate: lte start AND endDate: gte end ]`. -/
def overlapOrCond (sd ed : Option Int) (start end_ : Int) : Bool :=
  (mongoLt sd end_ && mongoGte sd start) ||
  (mongoGt ed start && mongoLte ed end_) ||
  (mongoLte sd start && mongoGte ed end_)

/-- Filter predicate of the availability query in `createBooking`
(`_id: ne null` — vacuous on stored documents — plus car, status-in,
and the `$or` date condition on the camelCase paths). -/
def createQueryPred (carId : Nat) (start end_ : Int) (b : BookingDoc) : Bool :=
  (b.car == carId) &&
  (b.booking_status == "confirmed" || b.booking_status == "active") &&
  overlapOrCond (docField b "startDate") (docField b "endDate") start end_

/-- `Booking.find` of the availability query in `createBooking`. -/
def createOverlapQuery (db : List BookingDoc) (carId : Nat) (start end_ : Int) :
    List BookingDoc :=
  db.filter (createQueryPred carId start end_)

/-- Filter predicate of the availability query in `updateBooking`: as in
`createBooking` but with `_id: ne bookingId` (the booking under update is
excluded). -/
def updateQueryPred (bookingId carId : Nat) (start end_ : Int) (b : BookingDoc) : Bool :=
  (b._id != bookingId) &&
  (b.car == carId) &&
  (b.booking_status == "confirmed" || b.booking_status == "active") &&
  overlapOrCond (docField b "startDate") (docField b "endDate") start end_

/-- `Booking.find` of the availability query in `updateBooking`. -/
def updateOverlapQuery (db : List BookingDoc) (bookingId carId : Nat)
    (start end_ : Int) : List BookingDoc :=
  db.filter (updateQueryPred bookingId carId start end_)

/-- The `$or` date condition as it reads on a document that carries actual
values `s`, `e` at the tested paths — the OR-of-ranges formula of the
source, written over plain integers.  Used to compare the source condition
with the half-open interval test of the specification. -/
def orOfRanges (s e start end_ : Int) : Prop :=
  (s < end_ ∧ s ≥ start) ∨ (e > start ∧ e ≤ end_) ∨ (s ≤ start ∧ e ≥ end_)

/-- The half-open interval overlap test of the specification:
`[s,e)` meets `[start,end)` iff `s < end AND e > start`. -/
def halfOpenOverlap (s e start end_ : Int) : Prop :=
  s < end_ ∧ e > start

instance (s e start end_ : Int) : Decidable (orOfRanges s e start end_) := by
  unfold orOfRanges; infer_instance

instance (s e start end_ : Int) : Decidable (halfOpenOverlap s e start end_) := by
  unfold halfOpenOverlap; infer_instance

/-- A Car document as read by the booking logic: id, display identity, and
the `daily_rate` used for cost computation. -/
structure CarDoc where
  _id : Nat
  make : String
  model : String
  daily_rate : ℚ
deriving DecidableEq, Repr

/-- Environment of delegated lookups (User, Car, Location collections) and
the value of `new Date().setHours(0,0,0,0)` at request time. -/
structure Env where
  users : List Nat
  locations : List Nat
  cars : List CarDoc
  today : Int
deriving Repr

/-- A date field of a request body: absent (falsy, caught by the
missing-information check), present but unparsable (`new Date(s)` has NaN
time), or parsed to an instant in milliseconds. -/
inductive DateInput
  | missing
  | invalid
  | valid (ms : Int)
deriving DecidableEq, Repr

/-- `getTime()` of the parsed date, `none` for NaN. -/
def DateInput.parse : DateInput → Option Int
  | .valid ms => some ms
  | _ => none

/-- An `ErrorResponse(message, statusCode)` handed to `next`. -/
structure ErrResp where
  message : String
  status : Nat
deriving DecidableEq, Repr

/-- A createBooking request: the caller (`req.user.role`, `req.user.id`) and
the request body fields the controller reads.  `bodyUser` is `req.body.user`
(consulted only for admin callers); `total_cost` is the admin cost override
after `parseFloat` (`none` for undefined); `booking_status` is the admin
status override (`none` for absent/falsy). -/
structure CreateReq where
  role : String
  reqUserId : Nat
  bodyUser : Option Nat
  car : Option Nat
  startDate : DateInput
  endDate : DateInput
  pickupLocation : Option Nat
  dropoffLocation : Option Nat
  total_cost : Option ℚ
  booking_status : Option String
deriving Repr

/-- `Math.max(1, Math.ceil((end - start) / (1000*60*60*24)))` — the rental
duration in days, floored to a minimum of one day.  Exact for instants in
the float-safe range. -/
def durationDays (start end_ : Int) : Int :=
  max 1 ((end_ - start + (86400000 - 1)) / 86400000)

/-- `exports.createBooking` of `backend/controllers/bookings.js`, as a
function of the lookup environment, the Booking collection, the id the
store will assign, and the request.  Returns the created document and the
new collection, or the `ErrorResponse` passed to `next` (in which case the
collection is unchanged).  The final enum test models the schema validation
run by `Booking.create` (`booking_status` enum; every other required path is
always supplied). -/
def createBooking (env : Env) (db : List BookingDoc) (newId : Nat)
    (req : CreateReq) : Except ErrResp (BookingDoc × List BookingDoc) :=
  let userId : Option Nat :=
    if req.role = "admin" then req.bodyUser else some req.reqUserId
  match userId, req.car, req.pickupLocation, req.dropoffLocation with
  | some uid, some carId, some puId, some doId =>
    if req.startDate = .missing ∨ req.endDate = .missing then
      .error ⟨"Missing required booking information (User, Car, Dates, Locations)", 400⟩
    else if uid ∉ env.users then
      .error ⟨"User not found with id " ++ toString uid, 404⟩
    else
      match env.cars.find? (fun c => c._id == carId) with
      | none => .error ⟨"Car not found with id " ++ toString carId, 404⟩
      | some car =>
        if puId ∉ env.locations then
          .error ⟨"Pickup location not found with id " ++ toString puId, 404⟩
        else if doId ∉ env.locations then
          .error ⟨"Dropoff location not found with id " ++ toString doId, 404⟩
        else
          match req.startDate.parse, req.endDate.parse with
          | some start, some end_ =>
            if start ≥ end_ then
              .error ⟨"Start date must be before end date", 400⟩
            else if start < env.today ∧ req.role ≠ "admin" then
              .error ⟨"Start date cannot be in the past for customer bookings", 400⟩
            else if 0 < (createOverlapQuery db carId start end_).length then
              .error ⟨"Car " ++ car.make ++ " " ++ car.model ++
                      " is not available for the selected dates", 400⟩
            else
              let totalCost : ℚ :=
                match (if req.role = "admin" then req.total_cost else none) with
                | some c => c
                | none => (durationDays start end_ : ℚ) * car.daily_rate
              let status : String :=
                match (if req.role = "admin" then req.booking_status else none) with
                | some s => s
                | none => "pending_payment"
              if status ∈ bookingStatusEnum then
                let b : BookingDoc :=
                  ⟨newId, uid, carId, start, end_, totalCost, puId, doId, status⟩
                .ok (b, db ++ [b])
              else
                .error ⟨"Booking validation failed: booking_status", 400⟩
          | _, _ => .error ⟨"Invalid date format provided", 400⟩
  | _, _, _, _ =>
    .error ⟨"Missing required booking information (User, Car, Dates, Locations)", 400⟩

/-- An updateBooking request body (`updateBooking` is admin-only by the
route): the full field set the controller destructures.  `total_cost` is
`none` for undefined, null or the empty string (the three values the
override guard treats as absent). -/
structure UpdateReq where
  user : Option Nat
  car : Option Nat
  startDate : DateInput
  endDate : DateInput
  pickupLocation : Option Nat
  dropoffLocation : Option Nat
  total_cost : Option ℚ
  booking_status : Option String
deriving Repr

/-- `exports.updateBooking` of `backend/controllers/bookings.js`.  The
`updateData` handed to `findByIdAndUpdate` writes the dates under the keys
`startDate` / `endDate`, which are not schema paths; mongoose strict mode
silently drops unknown paths from updates, so the stored `start_date` /
`end_date` of the document are left unchanged.  The enum test models
`runValidators: true` on `booking_status`. -/
def updateBooking (env : Env) (db : List BookingDoc) (bookingId : Nat)
    (req : UpdateReq) : Except ErrResp (BookingDoc × List BookingDoc) :=
  match db.find? (fun b => b._id == bookingId) with
  | none => .error ⟨"Booking not found with id of " ++ toString bookingId, 404⟩
  | some b0 =>
    match req.user, req.car, req.pickupLocation, req.dropoffLocation, req.booking_status with
    | some uid, some carId, some puId, some doId, some status =>
      if req.startDate = .missing ∨ req.endDate = .missing then
        .error ⟨"Missing required booking information (User, Car, Dates, Locations, Status)", 400⟩
      else if uid ∉ env.users then
        .error ⟨"User not found with id " ++ toString uid, 404⟩
      else
        match env.cars.find? (fun c => c._id == carId) with
        | none => .error ⟨"Car not found with id " ++ toString carId, 404⟩
        | some car =>
          if puId ∉ env.locations then
            .error ⟨"Pickup location not found with id " ++ toString puId, 404⟩
          else if doId ∉ env.locations then
            .error ⟨"Dropoff location not found with id " ++ toString doId, 404⟩
          else
            match req.startDate.parse, req.endDate.parse with
            | some start, some end_ =>
              if start ≥ end_ then
                .error ⟨"Start date must be before end date", 400⟩
              else if 0 < (updateOverlapQuery db bookingId carId start end_).length then
                .error ⟨"Car " ++ car.make ++ " " ++ car.model ++
                        " is not available for the selected dates", 400⟩
              else
                let finalCost : ℚ :=
                  match req.total_cost with
                  | some c => c
                  | none => (durationDays start end_ : ℚ) * car.daily_rate
                if status ∈ bookingStatusEnum then
                  let b1 : BookingDoc :=
                    { b0 with
                      user := uid, car := carId,
                      pickup_location := puId, dropoff_location := doId,
                      booking_status := status, total_cost := finalCost }
                  .ok (b1, db.map (fun b => if b._id == bookingId then b1 else b))
                else
                  .error ⟨"Booking validation failed: booking_status", 400⟩
            | _, _ => .error ⟨"Invalid date format provided", 400⟩
    | _, _, _, _, _ =>
      .error ⟨"Missing required booking information (User, Car, Dates, Locations, Status)", 400⟩

/-- The message of the invalid-state error of `confirmBookingPayment`
(the source wraps the status in single quotes inside the template string;
the quotes are elided here). -/
def statusAlreadyMsg (st : String) : String :=
  "Booking status is already " ++ st ++ ", cannot confirm payment."

/-- `exports.confirmBookingPayment` of `backend/controllers/bookings.js`:
404 if absent, 401 for a caller who neither owns the booking nor is an
administrator, invalid-state 400 (message carrying the current status) when
the status is not `pending_payment`, else the status flips to `confirmed`
and the document is saved. -/
def confirmBookingPayment (db : List BookingDoc) (bookingId reqUserId : Nat)
    (role : String) : Except ErrResp (BookingDoc × List BookingDoc) :=
  match db.find? (fun b => b._id == bookingId) with
  | none => .error ⟨"Booking not found with id of " ++ toString bookingId, 404⟩
  | some b =>
    if b.user ≠ reqUserId ∧ role ≠ "admin" then
      .error ⟨"Not authorized to update this booking", 401⟩
    else if b.booking_status ≠ "pending_payment" then
      .error ⟨statusAlreadyMsg b.booking_status, 400⟩
    else
      let b1 : BookingDoc := { b with booking_status := "confirmed" }
      .ok (b1, db.map (fun x => if x._id == bookingId then b1 else x))

/-- HTTP methods used by the embedded routes. -/
inductive Method
  | GET | POST | PUT | DELETE
deriving DecidableEq, Repr

/-- One segment of an Express route pattern: a literal, or a named
parameter (`:id`), which matches exactly one path segment. -/
inductive Seg
  | lit (s : String)
  | param (name : String)
deriving DecidableEq, Repr

/-- Express matching of one pattern segment against one path segment. -/
def segMatch : Seg → String → Bool
  | .lit s, x => s == x
  | .param _, _ => true

/-- Express matching of a whole pattern against a path (segment lists must
have equal length, each segment matching). -/
def segsMatch : List Seg → List String → Bool
  | [], [] => true
  | sg :: sgs, x :: xs => segMatch sg x && segsMatch sgs xs
  | _, _ => false

/-- The controller handlers reachable through `backend/routes/bookings.js`. -/
inductive BookingHandler
  | createBooking | getBookings | getBooking | updateBooking | deleteBooking
  | confirmBookingPayment
deriving DecidableEq, Repr

/-- The route table of `backend/routes/bookings.js` (paths relative to the
`/api/v1/bookings` mount): `/` POST+GET, `/:id/confirm-payment` POST, and
`/:id` GET+PUT+DELETE.  This is the complete set of booking routes the
server mounts. -/
def bookingRouterRoutes : List (Method × List Seg × BookingHandler) :=
  [ (.POST, [], .createBooking),
    (.GET, [], .getBookings),
    (.POST, [.param "id", .lit "confirm-payment"], .confirmBookingPayment),
    (.GET, [.param "id"], .getBooking),
    (.PUT, [.param "id"], .updateBooking),
    (.DELETE, [.param "id"], .deleteBooking) ]

/-- Dispatch of a request that reaches the bookings router: the handler of
the first route whose method and pattern match, `none` when no route
matches (Express then falls through — a 404, no controller runs). -/
def bookingRouteLookup (m : Method) (path : List String) : Option BookingHandler :=
  (bookingRouterRoutes.find? (fun r => r.1 == m && segsMatch r.2.1 path)).map (fun r => r.2.2)

/-- The request issued by `handleUserCancelBooking` in
`frontend/js/account.js`: `quantumApiRequest(/bookings/<id>/cancel, PUT)`,
which after the `/api/v1/bookings` mount reaches the bookings router with
method PUT and the two path segments `<id>` and `cancel`. -/
def userCancelRequest (bookingId : String) : Method × List String :=
  (.PUT, [bookingId, "cancel"])

/-- The collection state after a createBooking request: the new collection
on success, the unchanged collection when an error was handed to `next`
(no write happens on any error path). -/
def runCreate (env : Env) (db : List BookingDoc) (newId : Nat)
    (req : CreateReq) : List BookingDoc :=
  match createBooking env db newId req with
  | .ok (_, db2) => db2
  | .error _ => db

/-! Concrete fixtures used by the counterexamples and witnesses.
Instants are UTC midnights of 2024 dates, in epoch milliseconds. -/

/-- 2024-01-01T00:00:00Z. -/
def msJan1 : Int := 1704067200000

/-- 2024-01-03T00:00:00Z. -/
def msJan3 : Int := 1704240000000

/-- 2024-03-10T00:00:00Z. -/
def msMar10 : Int := 1710028800000

/-- 2024-03-12T00:00:00Z. -/
def msMar12 : Int := 1710201600000

/-- 2024-03-15T00:00:00Z. -/
def msMar15 : Int := 1710460800000

/-- 2024-03-16T00:00:00Z. -/
def msMar16 : Int := 1710547200000

/-- A lookup environment: user 7, locations 4 and 5, one car (id 1,
daily rate 50); the current date predates all fixture dates. -/
def envFx : Env := ⟨[7], [4, 5], [⟨1, "Toyota", "Camry", 50⟩], 0⟩

/-- An administrator createBooking request for car 1 over `[s, e)` with an
explicit `confirmed` status and no cost override. -/
def reqAdminConfirmed (s e : Int) : CreateReq :=
  ⟨"admin", 7, some 7, some 1, .valid s, .valid e, some 4, some 5, none, some "confirmed"⟩

/-- A customer createBooking request for car 1 over `[s, e)` (no overrides). -/
def reqCustomer (s e : Int) : CreateReq :=
  ⟨"customer", 7, none, some 1, .valid s, .valid e, some 4, some 5, none, none⟩

/-- An administrator createBooking request supplying the explicit cost -5. -/
def reqAdminNegCost : CreateReq :=
  ⟨"admin", 7, some 7, some 1, .valid msMar10, .valid msMar15, some 4, some 5,
   some (-5), none⟩

/-- A customer createBooking request for a nonexistent car (id 9) whose two
dates are equal (start not before end). -/
def reqBadOrderNoCar : CreateReq :=
  ⟨"customer", 7, none, some 9, .valid msMar15, .valid msMar15, some 4, some 5,
   none, none⟩

/-- An updateBooking body resubmitting booking 1 unchanged except for the
status `active`, with no cost override. -/
def updateReqFx : UpdateReq :=
  ⟨some 7, some 1, .valid msMar10, .valid msMar15, some 4, some 5, none, some "active"⟩

/-- The document persisted by the first fixture create: car 1, `confirmed`,
`[2024-03-10, 2024-03-15)`. -/
def bookingA : BookingDoc :=
  ⟨1, 7, 1, msMar10, msMar15, (durationDays msMar10 msMar15 : ℚ) * 50, 4, 5, "confirmed"⟩

/-- The document persisted by the second fixture create: car 1, `confirmed`,
`[2024-03-12, 2024-03-16)` — overlapping `bookingA`. -/
def bookingB : BookingDoc :=
  ⟨2, 7, 1, msMar12, msMar16, (durationDays msMar12 msMar16 : ℚ) * 50, 4, 5, "confirmed"⟩

/-- The document persisted by the customer create for
`[2024-03-12, 2024-03-16)` (admitted although it overlaps `bookingA`). -/
def bookingB2 : BookingDoc :=
  ⟨2, 7, 1, msMar12, msMar16, (durationDays msMar12 msMar16 : ℚ) * 50, 4, 5,
   "pending_payment"⟩

/-- The document persisted by the customer create over
`[2024-01-01, 2024-01-03)` at daily rate 50. -/
def bookingC6 : BookingDoc :=
  ⟨1, 7, 1, msJan1, msJan3, (durationDays msJan1 msJan3 : ℚ) * 50, 4, 5,
   "pending_payment"⟩

/-- The document persisted by the admin create with cost override -5. -/
def bookingNeg : BookingDoc :=
  ⟨1, 7, 1, msMar10, msMar15, -5, 4, 5, "pending_payment"⟩

/-- `bookingA` after the fixture update: status `active`, recomputed cost,
dates untouched. -/
def bookingAUpd : BookingDoc :=
  ⟨1, 7, 1, msMar10, msMar15, (durationDays msMar10 msMar15 : ℚ) * 50, 4, 5, "active"⟩

/-- No stored document carries the `startDate` path. -/
theorem docField_startDate_none (b : BookingDoc) : docField b "startDate" = none := rfl

/-- No stored document carries the `endDate` path. -/
theorem docField_endDate_none (b : BookingDoc) : docField b "endDate" = none := rfl

/-- The `$or` date condition matches nothing when both tested paths are
absent. -/
theorem overlapOrCond_none_none (start end_ : Int) :
    overlapOrCond none none start end_ = false := rfl

/-- The createBooking availability filter rejects every stored document:
its date conditions read the absent camelCase paths. -/
theorem createQueryPred_false (carId : Nat) (start end_ : Int) (b : BookingDoc) :
    createQueryPred carId start end_ b = false := by
  simp [createQueryPred, docField_startDate_none, docField_endDate_none,
    overlapOrCond_none_none]

/-- The updateBooking availability filter rejects every stored document. -/
theorem updateQueryPred_false (bookingId carId : Nat) (start end_ : Int) (b : BookingDoc) :
    updateQueryPred bookingId carId start end_ b = false := by
  simp [updateQueryPred, docField_startDate_none, docField_endDate_none,
    overlapOrCond_none_none]

/-- The createBooking availability query always returns the empty list. -/
theorem createOverlapQuery_nil (db : List BookingDoc) (carId : Nat) (start end_ : Int) :
    createOverlapQuery db carId start end_ = [] := by
  simp [createOverlapQuery, createQueryPred_false]

/-- The updateBooking availability query always returns the empty list. -/
theorem updateOverlapQuery_nil (db : List BookingDoc) (bookingId carId : Nat)
    (start end_ : Int) : updateOverlapQuery db bookingId carId start end_ = [] := by
  simp [updateOverlapQuery, updateQueryPred_false]

set_option maxHeartbeats 1000000 in
/-- Shape of a successful createBooking: the persisted document echoes the
request (car, parsed dates, id assigned by the store), is appended to the
collection, satisfies the date-order guard, passed the (empty) availability
query, and carries the cost and status the controller computed. -/
theorem createBooking_ok_spec {env : Env} {db : List BookingDoc} {newId : Nat}
    {req : CreateReq} {b : BookingDoc} {db2 : List BookingDoc}
    (h : createBooking env db newId req = .ok (b, db2)) :
      req.car = some b.car ∧
      req.startDate.parse = some b.start_date ∧
      req.endDate.parse = some b.end_date ∧
      b.start_date < b.end_date ∧
      b._id = newId ∧ db2 = db ++ [b] ∧
      (env.cars.find? (fun c => c._id == b.car)).isSome ∧
      b.booking_status = (match (if req.role = "admin" then req.booking_status else none) with
        | some s => s
        | none => "pending_payment") ∧
      b.booking_status ∈ bookingStatusEnum ∧
      (createOverlapQuery db b.car b.start_date b.end_date).length = 0 ∧
      ∀ car, env.cars.find? (fun c => c._id == b.car) = some car →
        b.total_cost = (match (if req.role = "admin" then req.total_cost else none) with
          | some c => c
          | none => (durationDays b.start_date b.end_date : ℚ) * car.daily_rate) := by
  simp only [createBooking] at h
  repeat' split at h
  any_goals exact Except.noConfusion h
  all_goals (
    injection h with hpair
    injection hpair with hb hdb
    subst hb
    subst hdb
    simp_all
    try omega)

set_option maxHeartbeats 1000000 in
/-- Shape of a successful updateBooking: the stored document with the
id of the booking is replaced by one carrying the requested status and the
computed (or overridden) cost; the dates of the request parsed and are in order.
The dates of the stored document itself are not part of the conclusion:
`findByIdAndUpdate` drops the non-schema `startDate`/`endDate` update keys,
leaving `start_date`/`end_date` unchanged. -/
theorem updateBooking_ok_spec {env : Env} {db : List BookingDoc} {bookingId : Nat}
    {req : UpdateReq} {b1 : BookingDoc} {db2 : List BookingDoc}
    (h : updateBooking env db bookingId req = .ok (b1, db2)) :
      req.car = some b1.car ∧
      req.booking_status = some b1.booking_status ∧
      b1.booking_status ∈ bookingStatusEnum ∧
      (req.startDate.parse).isSome ∧ (req.endDate.parse).isSome ∧
      (env.cars.find? (fun c => c._id == b1.car)).isSome ∧
      db2 = db.map (fun b => if b._id == bookingId then b1 else b) ∧
      ∀ s e, req.startDate.parse = some s → req.endDate.parse = some e →
        s < e ∧
        ∀ car, env.cars.find? (fun c => c._id == b1.car) = some car →
          b1.total_cost = (match req.total_cost with
            | some c => c
            | none => (durationDays s e : ℚ) * car.daily_rate) := by
  simp only [updateBooking] at h
  repeat' split at h
  any_goals exact Except.noConfusion h
  all_goals (
    injection h with hpair
    injection hpair with hb hdb
    subst hb
    subst hdb
    simp_all
    try omega)

/-- C10: for valid ranges (`s < e`, `start < end`), the OR-of-ranges date
condition of the source availability query — evaluated on a document whose
tested paths carry the values `s` and `e` — is logically equivalent to the
single half-open-interval test `s < end AND e > start`. -/
theorem overlap_or_equiv_half_open (s e start end_ : Int)
    (h1 : s < e) (h2 : start < end_) :
    ((overlapOrCond (some s) (some e) start end_ = true) ↔
      halfOpenOverlap s e start end_) ∧
    (orOfRanges s e start end_ ↔ halfOpenOverlap s e start end_) := by
  simp only [overlapOrCond, mongoLt, mongoLte, mongoGt, mongoGte,
    orOfRanges, halfOpenOverlap, Bool.or_eq_true, Bool.and_eq_true,
    decide_eq_true_eq]
  constructor <;> omega

/-- Witness for C10 at `[0,2)` against `[1,3)`. -/
theorem overlap_or_equiv_half_open_witness :
    (0 : Int) < 2 ∧ (1 : Int) < 3 ∧
    ((overlapOrCond (some 0) (some 2) 1 3 = true) ↔ halfOpenOverlap 0 2 1 3) ∧
    (orOfRanges 0 2 1 3 ↔ halfOpenOverlap 0 2 1 3) :=
  ⟨by decide, by decide, overlap_or_equiv_half_open 0 2 1 3 (by decide) (by decide)⟩

/-- C4: the backend mounts no route for the self-service cancellation
request the frontend issues (`PUT /api/v1/bookings/:id/cancel` from
`handleUserCancelBooking`): dispatch over the complete bookings route table
finds no handler, so no controller ever transitions a booking to
`cancelled` on this request. -/
theorem cancel_request_has_no_route (bookingId : String) :
    bookingRouteLookup (userCancelRequest bookingId).1
      (userCancelRequest bookingId).2 = none := rfl

/-- C9: the updateBooking availability filter carries `_id: ne bookingId`,
so a document whose id is the booking under update never satisfies it and
is never among the returned conflicts — an update resubmitting the booking in question with its
own vehicle and dates can never raise a conflict caused by that booking
itself. -/
theorem update_query_excludes_self (bid carId : Nat) (s e : Int)
    (b : BookingDoc) (hid : b._id = bid) :
    updateQueryPred bid carId s e b = false ∧
    ∀ db : List BookingDoc, b ∉ updateOverlapQuery db bid carId s e := by
  constructor
  · simp [updateQueryPred, hid]
  · intro db hmem
    rw [updateOverlapQuery, List.mem_filter] at hmem
    simp [updateQueryPred_false] at hmem

/-- Witness for C9: `bookingA` (id 1) is never a conflict for an update of
booking 1 resubmitting its own vehicle and dates. -/
theorem update_query_excludes_self_witness :
    updateQueryPred 1 1 msMar10 msMar15 bookingA = false ∧
    bookingA ∉ updateOverlapQuery [bookingA] 1 1 msMar10 msMar15 := by
  have h := update_query_excludes_self 1 1 msMar10 msMar15 bookingA rfl
  exact ⟨h.1, h.2 [bookingA]⟩

/-- C1 (falsified by the code): a sequential pair of createBooking calls —
an admin creates a `confirmed` booking for car 1 over
`[2024-03-10, 2024-03-15)` and then another `confirmed` booking for the
same car over `[2024-03-12, 2024-03-16)` — both succeed, leaving two
distinct persisted bookings on the same vehicle, both with status in
{confirmed, active}, whose half-open date ranges overlap
(`NOT (A.startDate >= B.endDate OR B.startDate >= A.endDate)`): the
availability query compares the absent camelCase date paths, so the second
create is admitted. -/
theorem overlap_invariant_violated_by_two_creates :
    createBooking envFx [] 1 (reqAdminConfirmed msMar10 msMar15) =
      .ok (bookingA, [bookingA]) ∧
    createBooking envFx [bookingA] 2 (reqAdminConfirmed msMar12 msMar16) =
      .ok (bookingB, [bookingA, bookingB]) ∧
    bookingA._id ≠ bookingB._id ∧
    bookingA.car = bookingB.car ∧
    bookingA.booking_status = "confirmed" ∧
    bookingB.booking_status = "confirmed" ∧
    ¬(bookingA.start_date ≥ bookingB.end_date ∨
      bookingB.start_date ≥ bookingA.end_date) := by
  refine ⟨rfl, rfl, by decide, rfl, rfl, rfl, by decide⟩

/-- C2 (falsified by the code): with the `confirmed` booking `bookingA`
for car 1 over `[2024-03-10, 2024-03-15)` persisted, a customer create for
`[2024-03-12, 2024-03-16)` — a range that the stored dates of `bookingA` overlap in
the half-open sense — succeeds instead of failing with a conflict error:
the availability query returns no documents at all. -/
theorem availability_check_reports_no_conflict_on_overlap :
    createBooking envFx [] 1 (reqAdminConfirmed msMar10 msMar15) =
      .ok (bookingA, [bookingA]) ∧
    bookingA.booking_status = "confirmed" ∧
    bookingA.car = 1 ∧
    halfOpenOverlap bookingA.start_date bookingA.end_date msMar12 msMar16 ∧
    createOverlapQuery [bookingA] 1 msMar12 msMar16 = [] ∧
    createBooking envFx [bookingA] 2 (reqCustomer msMar12 msMar16) =
      .ok (bookingB2, [bookingA, bookingB2]) := by
  refine ⟨rfl, rfl, rfl, by decide, rfl, rfl⟩

/-- C3: every document persisted by createBooking stores its dates under
the schema paths `start_date` / `end_date` (holding the parsed request
dates), carries no `startDate` / `endDate` path, and is therefore never
matched by the availability queries of later createBooking or
updateBooking calls, whose date conditions read those absent paths. -/
theorem created_booking_never_matched_by_overlap_queries
    {env : Env} {db : List BookingDoc} {newId : Nat} {req : CreateReq}
    {b : BookingDoc} {db2 : List BookingDoc}
    (h : createBooking env db newId req = .ok (b, db2)) :
    docField b "start_date" = some b.start_date ∧
    docField b "end_date" = some b.end_date ∧
    req.startDate.parse = some b.start_date ∧
    req.endDate.parse = some b.end_date ∧
    docField b "startDate" = none ∧
    docField b "endDate" = none ∧
    ∀ (db3 : List BookingDoc) (carId : Nat) (s e : Int),
      b ∉ createOverlapQuery db3 carId s e ∧
      ∀ bid, b ∉ updateOverlapQuery db3 bid carId s e := by
  obtain ⟨-, hs, he, -, -, -, -, -, -, -, -⟩ := createBooking_ok_spec h
  refine ⟨rfl, rfl, hs, he, rfl, rfl, ?_⟩
  intro db3 carId s e
  constructor
  · intro hmem
    rw [createOverlapQuery, List.mem_filter] at hmem
    simp [createQueryPred_false] at hmem
  · intro bid hmem
    rw [updateOverlapQuery, List.mem_filter] at hmem
    simp [updateQueryPred_false] at hmem

/-- Witness for C3: the concrete customer create over
`[2024-01-01, 2024-01-03)` persists `bookingC6`, which no later
availability query matches. -/
theorem created_booking_never_matched_witness :
    createBooking envFx [] 1 (reqCustomer msJan1 msJan3) =
      .ok (bookingC6, [bookingC6]) ∧
    docField bookingC6 "startDate" = none ∧
    bookingC6 ∉ createOverlapQuery [bookingC6] 1 msJan1 msJan3 ∧
    bookingC6 ∉ updateOverlapQuery [bookingC6] 2 1 msJan1 msJan3 := by
  have h := created_booking_never_matched_by_overlap_queries
    (rfl : createBooking envFx [] 1 (reqCustomer msJan1 msJan3) =
      .ok (bookingC6, [bookingC6]))
  have h2 := h.2.2.2.2.2.2 [bookingC6] 1 msJan1 msJan3
  exact ⟨rfl, h.2.2.2.2.1, h2.1, h2.2 2⟩

/-- C5: for an existing booking and an authorized caller (owner or admin),
confirmBookingPayment fails with the invalid-state 400 error whose message
carries the current status — performing no write — whenever the status is
not `pending_payment`; and when it is `pending_payment` it succeeds,
setting the status to `confirmed` and saving the document. -/
theorem confirm_payment_state_machine {db : List BookingDoc} {bid uid : Nat}
    {role : String} {b : BookingDoc}
    (hfind : db.find? (fun x => x._id == bid) = some b)
    (hauth : b.user = uid ∨ role = "admin") :
    (b.booking_status ≠ "pending_payment" →
      confirmBookingPayment db bid uid role =
        .error ⟨statusAlreadyMsg b.booking_status, 400⟩) ∧
    (b.booking_status = "pending_payment" →
      confirmBookingPayment db bid uid role =
        .ok ({ b with booking_status := "confirmed" },
             db.map (fun x => if x._id == bid then
               { b with booking_status := "confirmed" } else x))) := by
  have hna : ¬(b.user ≠ uid ∧ role ≠ "admin") := by tauto
  constructor
  · intro hst
    simp only [confirmBookingPayment, hfind]
    rw [if_neg hna, if_pos hst]
  · intro hst
    simp only [confirmBookingPayment, hfind]
    rw [if_neg hna, if_neg (by simp [hst])]

/-- Witness for C5: the owner confirming payment on the already-confirmed
`bookingA` gets the invalid-state error mentioning `confirmed`; on the
pending `bookingC6` the same call succeeds and flips the status. -/
theorem confirm_payment_state_machine_witness :
    confirmBookingPayment [bookingA] 1 7 "customer" =
      .error ⟨statusAlreadyMsg "confirmed", 400⟩ := by
  have h := @confirm_payment_state_machine [bookingA] 1 7 "customer" bookingA
    rfl (Or.inl rfl)
  exact h.1 (by decide)

/-- C6: on a successful createBooking, with no admin cost override the
persisted `total_cost` is `max(1, ceil((end - start) / 1 day))` times the
daily rate of the booked car, and with no admin status override the
persisted status is `pending_payment`; an admin-supplied cost is stored
as given. -/
theorem create_cost_and_status_defaults {env : Env} {db : List BookingDoc}
    {newId : Nat} {req : CreateReq} {b : BookingDoc} {db2 : List BookingDoc}
    {car : CarDoc}
    (h : createBooking env db newId req = .ok (b, db2))
    (hcar : env.cars.find? (fun c => c._id == b.car) = some car) :
    ((req.role = "admin" → req.total_cost = none) →
      b.total_cost = (durationDays b.start_date b.end_date : ℚ) * car.daily_rate) ∧
    ((req.role = "admin" → req.booking_status = none) →
      b.booking_status = "pending_payment") ∧
    (req.role = "admin" → ∀ c, req.total_cost = some c → b.total_cost = c) := by
  obtain ⟨-, -, -, -, -, -, -, hstat, -, -, hcost⟩ := createBooking_ok_spec h
  have hc := hcost car hcar
  by_cases hr : req.role = "admin"
  · refine ⟨?_, ?_, ?_⟩
    · intro hnone; rw [hc]; simp [hr, hnone hr]
    · intro hnone; rw [hstat]; simp [hr, hnone hr]
    · intro _ c hcset; rw [hc]; simp [hr, hcset]
  · refine ⟨?_, ?_, fun hr2 => absurd hr2 hr⟩
    · intro _; rw [hc]; simp [hr]
    · intro _; rw [hstat]; simp [hr]

/-- Witness for C6: the customer create at daily rate 50 over
`[2024-01-01, 2024-01-03)` persists `total_cost = 100` (2 days times 50)
and status `pending_payment`. -/
theorem create_cost_and_status_defaults_witness :
    createBooking envFx [] 1 (reqCustomer msJan1 msJan3) =
      .ok (bookingC6, [bookingC6]) ∧
    bookingC6.total_cost = 100 ∧
    bookingC6.booking_status = "pending_payment" := by
  have h := @create_cost_and_status_defaults envFx [] 1 (reqCustomer msJan1 msJan3)
    bookingC6 [bookingC6] ⟨1, "Toyota", "Camry", 50⟩ rfl rfl
  refine ⟨rfl, ?_, h.2.1 (fun hr => absurd hr (by decide))⟩
  have hc := h.1 (fun hr => absurd hr (by decide))
  rw [hc]
  have hd : durationDays bookingC6.start_date bookingC6.end_date = 2 := by decide
  rw [hd]
  norm_num

/-- The duration in days is floored to a minimum of one. -/
theorem durationDays_ge_one (s e : Int) : 1 ≤ durationDays s e :=
  le_max_left 1 _

/-- C7 counterexample: an administrator createBooking supplying the
explicit cost -5 succeeds and persists a booking whose `total_cost` is
negative — no path validates the override. -/
theorem admin_cost_override_stores_negative :
    createBooking envFx [] 1 reqAdminNegCost = .ok (bookingNeg, [bookingNeg]) ∧
    bookingNeg.total_cost < 0 :=
  ⟨rfl, by decide⟩

/-- C7 amended: every booking persisted by createBooking or updateBooking
WITHOUT an explicit admin cost override has `total_cost >= 0` whenever the
daily rate of the booked car is nonnegative; the override path stores the
supplied value unchecked (see the counterexample). -/
theorem computed_cost_nonneg :
    (∀ (env : Env) (db : List BookingDoc) (newId : Nat) (req : CreateReq)
        (b : BookingDoc) (db2 : List BookingDoc) (car : CarDoc),
      createBooking env db newId req = .ok (b, db2) →
      env.cars.find? (fun c => c._id == b.car) = some car →
      0 ≤ car.daily_rate →
      (req.role = "admin" → req.total_cost = none) →
      0 ≤ b.total_cost) ∧
    (∀ (env : Env) (db : List BookingDoc) (bid : Nat) (req : UpdateReq)
        (b1 : BookingDoc) (db2 : List BookingDoc) (car : CarDoc),
      updateBooking env db bid req = .ok (b1, db2) →
      env.cars.find? (fun c => c._id == b1.car) = some car →
      0 ≤ car.daily_rate →
      req.total_cost = none →
      0 ≤ b1.total_cost) := by
  constructor
  · intro env db newId req b db2 car h hcar hrate hnone
    obtain ⟨-, -, -, -, -, -, -, -, -, -, hcost⟩ := createBooking_ok_spec h
    have hc := hcost car hcar
    have hnn : (0:ℚ) ≤ (durationDays b.start_date b.end_date : ℚ) := by
      have h1 : (1:ℚ) ≤ (durationDays b.start_date b.end_date : ℚ) := by
        exact_mod_cast durationDays_ge_one b.start_date b.end_date
      linarith
    by_cases hr : req.role = "admin"
    · rw [hc]; simp [hr, hnone hr]; exact mul_nonneg hnn hrate
    · rw [hc]; simp [hr]; exact mul_nonneg hnn hrate
  · intro env db bid req b1 db2 car h hcar hrate hnone
    obtain ⟨-, -, -, hps, hpe, -, -, hrest⟩ := updateBooking_ok_spec h
    obtain ⟨s, hs⟩ := Option.isSome_iff_exists.mp hps
    obtain ⟨e, he⟩ := Option.isSome_iff_exists.mp hpe
    obtain ⟨-, hcost⟩ := hrest s e hs he
    have hc := hcost car hcar
    rw [hc, hnone]
    have hnn : (0:ℚ) ≤ (durationDays s e : ℚ) := by
      have h1 : (1:ℚ) ≤ (durationDays s e : ℚ) := by
        exact_mod_cast durationDays_ge_one s e
      linarith
    exact mul_nonneg hnn hrate

/-- Witness for the amended C7: the computed costs of the fixture create
and the fixture update are nonnegative. -/
theorem computed_cost_nonneg_witness :
    0 ≤ bookingC6.total_cost ∧ 0 ≤ bookingAUpd.total_cost := by
  constructor
  · exact computed_cost_nonneg.1 envFx [] 1 (reqCustomer msJan1 msJan3)
      bookingC6 [bookingC6] ⟨1, "Toyota", "Camry", 50⟩ rfl rfl (by norm_num)
      (fun hr => absurd hr (by decide))
  · exact computed_cost_nonneg.2 envFx [bookingA] 1 updateReqFx
      bookingAUpd [bookingAUpd] ⟨1, "Toyota", "Camry", 50⟩ rfl rfl (by norm_num) rfl

/-- C8 amended: a createBooking whose referenced user, car and locations
all exist and whose dates parse with start not before end fails with the
400 validation error on date order and persists nothing; when a referenced
resource is missing the call still fails and persists nothing, but with a
404 not-found error, not a validation error (see the counterexample). -/
theorem create_bad_date_order_rejected
    {env : Env} {db : List BookingDoc} {newId : Nat} {req : CreateReq}
    {uid carId puId doId : Nat} {car : CarDoc} {s e : Int}
    (hu : (if req.role = "admin" then req.bodyUser else some req.reqUserId) = some uid)
    (huser : uid ∈ env.users)
    (hc : req.car = some carId)
    (hcar : env.cars.find? (fun c => c._id == carId) = some car)
    (hp : req.pickupLocation = some puId) (hploc : puId ∈ env.locations)
    (hd : req.dropoffLocation = some doId) (hdloc : doId ∈ env.locations)
    (hs : req.startDate = .valid s) (he : req.endDate = .valid e)
    (hord : s ≥ e) :
    createBooking env db newId req =
      .error ⟨"Start date must be before end date", 400⟩ ∧
    runCreate env db newId req = db := by
  have h1 : createBooking env db newId req =
      .error ⟨"Start date must be before end date", 400⟩ := by
    simp only [createBooking, hu, hc, hp, hd, hs, he, DateInput.parse]
    simp [huser, hcar, hploc, hdloc, hord]
  exact ⟨h1, by simp [runCreate, h1]⟩

/-- C8 counterexample: a createBooking with equal parsed dates but a
nonexistent car id fails with the 404 car-not-found error — the resource
checks run before the date-order guard, so the failure is not the claimed
ValidationError. -/
theorem create_bad_date_order_with_unknown_car_is_not_found :
    reqBadOrderNoCar.startDate.parse = some msMar15 ∧
    reqBadOrderNoCar.endDate.parse = some msMar15 ∧
    msMar15 ≥ msMar15 ∧
    createBooking envFx [] 1 reqBadOrderNoCar =
      .error ⟨"Car not found with id " ++ toString (9:ℕ), 404⟩ ∧
    (404 : Nat) ≠ 400 :=
  ⟨rfl, rfl, by decide, rfl, by decide⟩

/-- Witness for the amended C8: the customer create over
`[2024-03-15, 2024-03-15)` with all resources present is rejected with the
date-order validation error and writes nothing. -/
theorem create_bad_date_order_rejected_witness :
    createBooking envFx [] 1 (reqCustomer msMar15 msMar15) =
      .error ⟨"Start date must be before end date", 400⟩ ∧
    runCreate envFx [] 1 (reqCustomer msMar15 msMar15) = [] :=
  @create_bad_date_order_rejected envFx [] 1 (reqCustomer msMar15 msMar15)
    7 1 4 5 ⟨1, "Toyota", "Camry", 50⟩ msMar15 msMar15
    rfl (by decide) rfl rfl rfl (by decide) rfl (by decide) rfl rfl (by decide)

/-- Witness for C4 at a concrete booking id. -/
theorem cancel_request_has_no_route_witness :
    bookingRouteLookup (userCancelRequest "abc123").1
      (userCancelRequest "abc123").2 = none :=
  cancel_request_has_no_route "abc123"
